import Mathlib

/-!
Shallow embedding of `src/calculator.py`.

Numbers are embedded as exact rationals (`ℚ`): the Python code performs
plain arithmetic on its numeric inputs with no rounding policy of its own,
so an exact-arithmetic embedding is used throughout.

A Python `ValueError` is embedded as the `Except.error` branch carrying the
exception message.  The method form `Calculator.divide` mutates `self`; its
embedding returns, on error, the state the object holds when the exception
escapes (the guard in the source runs before any mutation, so that state is
the entry state).
-/

/-- `add(a, b)` from `src/calculator.py`: returns `a + b`. -/
def add (a b : ℚ) : ℚ :=
  a + b

/-- `subtract(a, b)` from `src/calculator.py`: returns `a - b`. -/
def subtract (a b : ℚ) : ℚ :=
  a - b

/-- `multiply(a, b)` from `src/calculator.py`: returns `a * b`. -/
def multiply (a b : ℚ) : ℚ :=
  a * b

/-- `divide(a, b)` from `src/calculator.py`: raises
`ValueError("Cannot divide by zero")` when `b == 0`, else returns `a / b`. -/
def divide (a b : ℚ) : Except String ℚ :=
  if b = 0 then Except.error "Cannot divide by zero"
  else Except.ok (a / b)

/-- The `Calculator` class of `src/calculator.py`: a mutable container
holding one numeric attribute `value`, set by `__init__`. -/
structure Calculator where
  value : ℚ
deriving DecidableEq

/-- `Calculator.add(self, number)`: `self.value += number; return self`. -/
def Calculator.add (c : Calculator) (number : ℚ) : Calculator :=
  ⟨c.value + number⟩

/-- `Calculator.subtract(self, number)`: `self.value -= number; return self`. -/
def Calculator.subtract (c : Calculator) (number : ℚ) : Calculator :=
  ⟨c.value - number⟩

/-- `Calculator.multiply(self, number)`: `self.value *= number; return self`. -/
def Calculator.multiply (c : Calculator) (number : ℚ) : Calculator :=
  ⟨c.value * number⟩

/-- `Calculator.divide(self, number)`: raises
`ValueError("Cannot divide by zero")` when `number == 0` — the guard runs
before the mutation, so the error carries the unchanged entry state —
otherwise `self.value /= number; return self`. -/
def Calculator.divide (c : Calculator) (number : ℚ) :
    Except (String × Calculator) Calculator :=
  if number = 0 then Except.error ("Cannot divide by zero", c)
  else Except.ok ⟨c.value / number⟩

/-- `Calculator.reset(self)`: `self.value = 0.0; return self`. -/
def Calculator.reset (_c : Calculator) : Calculator :=
  ⟨0⟩

/-- `Calculator.__str__`: the f-string `f"Calculator(value={self.value})"`. -/
def Calculator.str (c : Calculator) : String :=
  "Calculator(value=" ++ toString c.value ++ ")"

/-- `Calculator.__repr__`: the same f-string
`f"Calculator(value={self.value})"`. -/
def Calculator.repr (c : Calculator) : String :=
  "Calculator(value=" ++ toString c.value ++ ")"

/-- Claim C1: the free function `divide(a, b)` raises the invalid-argument
error (`ValueError "Cannot divide by zero"`) if and only if `b == 0`
(exact equality), and otherwise returns `a / b`; it is pure. -/
theorem divide_error_iff_divisor_zero (a b : ℚ) :
    (divide a b = Except.error "Cannot divide by zero" ↔ b = 0) ∧
    (b ≠ 0 → divide a b = Except.ok (a / b)) := by
  unfold divide
  refine ⟨⟨fun h => ?_, fun h => by simp [h]⟩, fun h => by simp [h]⟩
  by_contra hb
  simp [hb] at h

/-- Witness for C1 at concrete inputs: `divide(10, 0)` errors and
`divide(10, 2)` returns `5`. -/
theorem divide_error_iff_divisor_zero_witness :
    divide 10 0 = Except.error "Cannot divide by zero" ∧
    divide 10 2 = Except.ok 5 := by
  refine ⟨(divide_error_iff_divisor_zero 10 0).1.mpr rfl, ?_⟩
  have h5 : (10 : ℚ) / 2 = 5 := by norm_num
  rw [← h5]
  exact (divide_error_iff_divisor_zero 10 2).2 (by norm_num)

/-- Claim C2: for every accumulator state `c` and argument `n`,
`Calculator.divide` raises the invalid-argument error when `n == 0` and in
that case the held value when the exception escapes is the unchanged entry
state (the guard raises before mutating); when `n ≠ 0` it succeeds and the
held value becomes `c.value / n`. -/
theorem Calculator.divide_atomic_failure (c : Calculator) (n : ℚ) :
    (n = 0 → c.divide n = Except.error ("Cannot divide by zero", c)) ∧
    (n ≠ 0 → c.divide n = Except.ok ⟨c.value / n⟩) := by
  unfold Calculator.divide
  exact ⟨fun h => by simp [h], fun h => by simp [h]⟩

/-- Witness for C2 at a concrete state: `Accumulator(10).divide(0)` raises
and leaves the value `10` unchanged, while `Accumulator(10).divide(2)`
yields held value `5`. -/
theorem Calculator.divide_atomic_failure_witness :
    (Calculator.mk 10).divide 0
      = Except.error ("Cannot divide by zero", Calculator.mk 10) ∧
    (Calculator.mk 10).divide 2 = Except.ok (Calculator.mk 5) := by
  refine ⟨(Calculator.divide_atomic_failure (Calculator.mk 10) 0).1 rfl, ?_⟩
  have h5 : (10 : ℚ) / 2 = 5 := by norm_num
  have h := (Calculator.divide_atomic_failure (Calculator.mk 10) 2).2 (by norm_num)
  rw [h, h5]

/-- Claim C3: successful accumulator operations return the (mutated) same
instance, so consecutive chained calls observe cumulative mutation: from
initial value `10`, `add(5)` then `multiply(2)` yields held value `30`,
`reset` then `add(n)` continues from the reset state, and two consecutive
`add(1)` calls increase the held value by `2` in total. -/
theorem Calculator.chaining_cumulative (c : Calculator) (n : ℚ) :
    (((Calculator.mk 10).add 5).multiply 2).value = 30 ∧
    ((c.add 1).add 1).value = c.value + 2 ∧
    ((c.reset).add n).value = 0 + n ∧
    ((c.subtract n).value = c.value - n ∧ ((c.subtract n).add n).value = c.value) := by
  refine ⟨by norm_num [Calculator.add, Calculator.multiply], ?_, ?_, ?_, ?_⟩
  · simp [Calculator.add]
    ring
  · simp [Calculator.reset, Calculator.add]
  · simp [Calculator.subtract]
  · simp [Calculator.subtract, Calculator.add]

/-- Claim C4: for every pair of inputs, the free functions return the
corresponding arithmetic result with no error conditions: `add(a, b) = a + b`,
`subtract(a, b) = a - b`, `multiply(a, b) = a * b` (each is a total
function of its two inputs). -/
theorem free_functions_total_arithmetic (a b : ℚ) :
    add a b = a + b ∧ subtract a b = a - b ∧ multiply a b = a * b :=
  ⟨rfl, rfl, rfl⟩

/-- Claim C5: the accumulator operations `add`, `subtract` and `multiply`
always succeed (they are total, raising no error) and update the held value
to `value + n`, `value - n` and `value * n` respectively. -/
theorem Calculator.total_ops_update (c : Calculator) (n : ℚ) :
    (c.add n).value = c.value + n ∧
    (c.subtract n).value = c.value - n ∧
    (c.multiply n).value = c.value * n :=
  ⟨rfl, rfl, rfl⟩

/-- Claim C6: `reset()` sets the held value to `0.0` unconditionally,
always succeeds, and returns the instance; in particular an accumulator
initialized with `5` has held value `0` after `reset()`. -/
theorem Calculator.reset_to_zero (c : Calculator) :
    (c.reset).value = 0 ∧ c.reset = ⟨0⟩ ∧ ((Calculator.mk 5).reset).value = 0 :=
  ⟨rfl, rfl, rfl⟩

/-- Claim C7: for all `a`, `b` with `b ≠ 0`, `divide(a, b)` succeeds with a
quotient `q` and multiplying it back recovers the dividend:
`multiply(q, b) = a` (exactly, over the exact-arithmetic embedding). -/
theorem divide_multiply_recovers_dividend (a b : ℚ) (h : b ≠ 0) :
    ∃ q, divide a b = Except.ok q ∧ multiply q b = a := by
  refine ⟨a / b, by simp [divide, h], ?_⟩
  unfold multiply
  field_simp

/-- Witness for C7 at concrete inputs `a = 10`, `b = 4`. -/
theorem divide_multiply_recovers_dividend_witness :
    (4 : ℚ) ≠ 0 ∧ ∃ q, divide 10 4 = Except.ok q ∧ multiply q 4 = 10 :=
  ⟨by norm_num, divide_multiply_recovers_dividend 10 4 (by norm_num)⟩

/-- Claim C8: the free functions `add` and `multiply` are commutative and
`subtract` is self-annihilating: `add(a, b) = add(b, a)`,
`multiply(a, b) = multiply(b, a)` and `subtract(a, a) = 0`. -/
theorem add_multiply_comm_subtract_self (a b : ℚ) :
    add a b = add b a ∧ multiply a b = multiply b a ∧ subtract a a = 0 := by
  refine ⟨?_, ?_, ?_⟩ <;> simp [add, multiply, subtract, add_comm, mul_comm]

/-- Counterexample to claim C9 as stated: the string representation of the
accumulator at held value `5` is `"Calculator(value=5)"`, not of the form
`"Accumulator(value=<v>)"` — the label in the code is `Calculator`. -/
theorem str_label_not_accumulator :
    Calculator.str ⟨5⟩ = "Calculator(value=5)" ∧
    Calculator.str ⟨5⟩ ≠ "Accumulator(value=5)" ∧
    Calculator.repr ⟨5⟩ ≠ "Accumulator(value=5)" := by
  refine ⟨rfl, by decide, by decide⟩

/-- Claim C9 (amended): both string representations (`__str__` and
`__repr__`) render as a label plus the current held value, in the form
`"Calculator(value=<v>)"` where `<v>` is the current held value; nothing
other than the label and that value appears. -/
theorem str_renders_label_and_value (c : Calculator) :
    Calculator.str c = "Calculator(value=" ++ toString c.value ++ ")" ∧
    Calculator.repr c = "Calculator(value=" ++ toString c.value ++ ")" :=
  ⟨rfl, rfl⟩

/-- Claim C10: each accumulator method agrees with the corresponding free
function applied to the held value: `add`, `subtract` and `multiply` always
succeed with new held value equal to the free function's result; `divide`
raises exactly when the free function raises (iff `n = 0`, with the
identical message), and on success the new held value equals the free
function's quotient. -/
theorem methods_refine_free_functions (v n : ℚ) :
    ((Calculator.mk v).add n).value = add v n ∧
    ((Calculator.mk v).subtract n).value = subtract v n ∧
    ((Calculator.mk v).multiply n).value = multiply v n ∧
    (n = 0 → divide v n = Except.error "Cannot divide by zero" ∧
      (Calculator.mk v).divide n
        = Except.error ("Cannot divide by zero", Calculator.mk v)) ∧
    (n ≠ 0 → ∃ r, divide v n = Except.ok r ∧
      (Calculator.mk v).divide n = Except.ok (Calculator.mk r)) := by
  refine ⟨rfl, rfl, rfl, fun h => ?_, fun h => ?_⟩
  · simp [divide, Calculator.divide, h]
  · exact ⟨v / n, by simp [divide, h], by simp [Calculator.divide, h]⟩

/-- Witness for C10 at `v = 10` with `n = 0` (both forms raise the same
message) and `n = 4` (both forms yield the same quotient). -/
theorem methods_refine_free_functions_witness :
    (divide 10 0 = Except.error "Cannot divide by zero" ∧
      (Calculator.mk 10).divide 0
        = Except.error ("Cannot divide by zero", Calculator.mk 10)) ∧
    (∃ r, divide 10 4 = Except.ok r ∧
      (Calculator.mk 10).divide 4 = Except.ok (Calculator.mk r)) :=
  ⟨(methods_refine_free_functions 10 0).2.2.2.1 rfl,
   (methods_refine_free_functions 10 4).2.2.2.2 (by norm_num)⟩
